import Mathlib

/-
Verification of the borg-ui backup orchestration core.

This file gives a shallow embedding, in Lean 4, of the parts of the
repository that the specification talks about:

* `app/core/borgmatic.py` — path validation (`_validate_path`),
  argument sanitisation (`_sanitize_arg`), command execution
  (`_execute_command`), the command builders (`run_backup`,
  `list_archives`, `info_archive`, `extract_archive`, `delete_archive`,
  `prune_archives`, `check_repository`, `compact_repository`) and the
  aggregate `get_repository_status`;
* `app/api/backup.py` — `start_backup` job-state bookkeeping;
* `app/api/schedule.py` — the scheduler polling pass
  (`check_scheduled_jobs`), manual `run_scheduled_job_now`, and
  `update_scheduled_job`; these handlers reference the ORM name
  `ScheduledJob`, which the module never imports or defines, so their
  database code raises `NameError` at runtime — the embedding models
  both that name-resolution failure and the bodies as written;
* `app/api/events.py` — the `EventManager` registry
  (`add_connection`, `remove_connection`, `broadcast_event`) and the
  SSE `event_generator`.

External effects (the spawned process, the database session, the cron
library, JSON parsing) are passed in as explicit parameters, so every
definition is an executable function of its inputs.
-/

namespace BorgUI

/-! ## CommandResult and the path sanitizer (`app/core/borgmatic.py`) -/

/-- Outcome dictionary built by `_execute_command` and by the validation
failure branches of `run_backup` / `list_archives`:
`{"return_code": ..., "stdout": ..., "stderr": ..., "success": ...}`. -/
structure CommandResult where
  return_code : Int
  stdout : String
  stderr : String
  success : Bool
  deriving DecidableEq, Repr

/-- The character class `[;&|`$\\]` of `_validate_path` / `_sanitize_arg`,
by ASCII code: `;` 59, `&` 38, `|` 124, backtick 96, `$` 36, backslash 92. -/
def isDangerousChar (c : Char) : Bool :=
  c.toNat == 59 || c.toNat == 38 || c.toNat == 124 ||
  c.toNat == 96 || c.toNat == 36 || c.toNat == 92

/-- The allow-list `[a-zA-Z0-9/._-]` of `_validate_path`, by ASCII code:
`a`-`z` 97-122, `A`-`Z` 65-90, `0`-`9` 48-57, `/` 47, `.` 46, `-` 45, `_` 95. -/
def isAllowedChar (c : Char) : Bool :=
  (97 ≤ c.toNat && c.toNat ≤ 122) || (65 ≤ c.toNat && c.toNat ≤ 90) ||
  (48 ≤ c.toNat && c.toNat ≤ 57) ||
  c.toNat == 47 || c.toNat == 46 || c.toNat == 45 || c.toNat == 95

/-- Does `pat` occur at the front of `s`? (helper for substring search). -/
def matchFront : List Char → List Char → Bool
  | [], _ => true
  | _ :: _, [] => false
  | p :: ps, c :: cs => p == c && matchFront ps cs

/-- Does `pat` occur anywhere in `s`? Python's `pat in s` substring test. -/
def occursIn (pat : List Char) : List Char → Bool
  | [] => matchFront pat []
  | c :: cs => matchFront pat (c :: cs) || occursIn pat cs

/-- Python `'..' in path` from `_validate_path`. -/
def containsDotDot (p : String) : Bool :=
  occursIn ['.', '.'] p.data

/-- Python `path.startswith('/')`: the first character is `/` (47). -/
def startsWithSlash (cs : List Char) : Bool :=
  match cs with
  | [] => false
  | c :: _ => c.toNat == 47

/-- Drop one trailing newline (code point 10) if present: Python's
`re.match` anchor `$` matches at the end of the string or just before a
newline that is the string's last character. -/
def stripTrailingNewline (cs : List Char) : List Char :=
  match cs.getLast? with
  | some c => if c.toNat == 10 then cs.dropLast else cs
  | none => cs

/-- Python `bool(re.match(r'^[a-zA-Z0-9/._-]+$', s))`: one or more
allow-list characters, with `$` also tolerating a single trailing
newline (so `"abc\n"` matches but `"abc\n\n"`, `"a\nb"` and `"\n"` do
not). -/
def matchesAllowRegex (cs : List Char) : Bool :=
  !(stripTrailingNewline cs).isEmpty
    && (stripTrailingNewline cs).all isAllowedChar

/-- `BorgmaticInterface._validate_path` (`app/core/borgmatic.py:22`):
rejects the empty string, any string containing a character of
`[;&|`$\\]`, any string containing `..` or starting with `/`, and
accepts only matches of `re.match(r'^[a-zA-Z0-9/._-]+$', path)` — which
includes allow-list strings with one trailing newline. -/
def isValidPath (p : String) : Bool :=
  if p.data.isEmpty then false
  else if p.data.any isDangerousChar then false
  else if containsDotDot p || startsWithSlash p.data then false
  else matchesAllowRegex p.data

/-- `BorgmaticInterface._sanitize_arg` (`app/core/borgmatic.py:40`):
empty input maps to `""`, otherwise the characters of `[;&|`$\\]` are
removed and the result truncated to 1000 characters. -/
def sanitizeArg (a : String) : String :=
  if a.data.isEmpty then ""
  else ⟨(a.data.filter (fun c => !isDangerousChar c)).take 1000⟩

/-! ## `_execute_command` (`app/core/borgmatic.py:64`) -/

/-- How the spawned process behaves, as seen by `_execute_command`: it
either completes with an exit code and output, still runs when
`asyncio.wait_for` gives up (`asyncio.TimeoutError`), or fails to launch
(`FileNotFoundError`, `PermissionError`, ... caught by `except Exception`). -/
inductive ProcOutcome where
  | completed (returnCode : Int) (stdout stderr : String)
  | timedOut
  | launchFailure (msg : String)
  deriving DecidableEq, Repr

/-- `BorgmaticInterface._execute_command`: a total function — every
branch, including timeout and launch failure, returns a `CommandResult`
rather than raising. -/
def executeCommand (_cmd : List String) (timeout : Nat) (outcome : ProcOutcome) :
    CommandResult :=
  match outcome with
  | .completed rc out err =>
      { return_code := rc, stdout := out, stderr := err, success := rc == 0 }
  | .timedOut =>
      { return_code := -1, stdout := "",
        stderr := "Command timed out after " ++ toString timeout ++ " seconds",
        success := false }
  | .launchFailure msg =>
      { return_code := -1, stdout := "", stderr := msg, success := false }

/-! ## Command builders (`app/core/borgmatic.py:114-215`)

Each builder either fails fast with a `CommandResult` (`Sum.inl`, no
process spawned) or produces the argument list handed to
`_execute_command` (`Sum.inr`). -/

/-- The `{"return_code": -1, "stdout": "", "stderr": msg, "success": False}`
dictionaries returned on validation failure in `run_backup` / `list_archives`. -/
def invalidPathResult (msg : String) : CommandResult :=
  { return_code := -1, stdout := "", stderr := msg, success := false }

/-- Python truthiness of an optional string argument: `None` and `""`
are both falsy (`if repository:` / `if config_file:` / `elif self.config_path:`). -/
def optTruthy : Option String → Option String
  | none => none
  | some s => if s.data.isEmpty then none else some s

/-- The `--config` selection of `run_backup`: an explicit `config_file`
wins, else the instance's `config_path`, validating whichever is used. -/
def runBackupConfigPart (base : List String) (configFile : Option String)
    (configPath : String) : Sum CommandResult (List String) :=
  match optTruthy configFile with
  | some cf =>
      if !isValidPath cf then
        .inl (invalidPathResult "Invalid config file path: contains dangerous characters")
      else .inr (base ++ ["--config", sanitizeArg cf])
  | none =>
      match optTruthy (some configPath) with
      | some cp =>
          if !isValidPath cp then
            .inl (invalidPathResult "Invalid config path: contains dangerous characters")
          else .inr (base ++ ["--config", sanitizeArg cp])
      | none => .inr base

/-- `BorgmaticInterface.run_backup` (`app/core/borgmatic.py:114`): the
repository and the config file are validated and sanitized before they
enter the command. -/
def runBackupCmd (repository configFile : Option String) (configPath : String) :
    Sum CommandResult (List String) :=
  match optTruthy repository with
  | some r =>
      if !isValidPath r then
        .inl (invalidPathResult "Invalid repository path: contains dangerous characters")
      else
        runBackupConfigPart
          ["borgmatic", "create", "--repository", sanitizeArg r] configFile configPath
  | none => runBackupConfigPart ["borgmatic", "create"] configFile configPath

/-- `BorgmaticInterface.list_archives` (`app/core/borgmatic.py:149`):
validates and sanitizes the repository. -/
def listArchivesCmd (repository : String) : Sum CommandResult (List String) :=
  if !isValidPath repository then
    .inl (invalidPathResult "Invalid repository path: contains dangerous characters")
  else
    .inr ["borgmatic", "list", "--repository", sanitizeArg repository, "--json"]

/-- `BorgmaticInterface.info_archive` (`app/core/borgmatic.py:162`):
no validation — arguments go straight into the command. -/
def infoArchiveCmd (repository archive : String) : Sum CommandResult (List String) :=
  .inr ["borgmatic", "info", "--repository", repository, "--archive", archive, "--json"]

/-- `BorgmaticInterface.extract_archive` (`app/core/borgmatic.py:174`):
no validation of repository, archive, paths or destination. -/
def extractArchiveCmd (repository archive : String) (paths : List String)
    (destination : String) (dryRun : Bool) : Sum CommandResult (List String) :=
  .inr (["borgmatic", "extract"] ++ (if dryRun then ["--dry-run"] else []) ++
    ["--repository", repository, "--archive", archive, "--destination", destination] ++
    paths.foldl (fun acc p => acc ++ ["--path", p]) [])

/-- `BorgmaticInterface.delete_archive` (`app/core/borgmatic.py:189`): no validation. -/
def deleteArchiveCmd (repository archive : String) : Sum CommandResult (List String) :=
  .inr ["borgmatic", "delete", "--repository", repository, "--archive", archive]

/-- `BorgmaticInterface.prune_archives` (`app/core/borgmatic.py:194`): no validation. -/
def pruneArchivesCmd (repository : String)
    (keepDaily keepWeekly keepMonthly keepYearly : Nat) :
    Sum CommandResult (List String) :=
  .inr ["borgmatic", "prune", "--repository", repository,
    "--keep-daily", toString keepDaily, "--keep-weekly", toString keepWeekly,
    "--keep-monthly", toString keepMonthly, "--keep-yearly", toString keepYearly]

/-- `BorgmaticInterface.check_repository` (`app/core/borgmatic.py:207`): no validation. -/
def checkRepositoryCmd (repository : String) : Sum CommandResult (List String) :=
  .inr ["borgmatic", "check", "--repository", repository]

/-- `BorgmaticInterface.compact_repository` (`app/core/borgmatic.py:212`): no validation. -/
def compactRepositoryCmd (repository : String) : Sum CommandResult (List String) :=
  .inr ["borgmatic", "compact", "--repository", repository]

/-! ## `get_repository_status` (`app/core/borgmatic.py:426`) -/

/-- A `BackupJob` database row as touched by `start_backup` /
`cancel_backup`. -/
structure BackupJob where
  id : Nat
  repository : String
  status : String
  progress : Nat
  deriving DecidableEq, Repr

/-- The first half of `start_backup`, up to the `await borgmatic.run_backup`
suspension point: unconditionally inserts a new row with
`status="running"` and `repository = request.repository or "default"`.
There is no check against existing running jobs. -/
def beginBackup (s : List BackupJob) (repository : Option String) : List BackupJob :=
  s ++ [{ id := s.length + 1,
          repository := (optTruthy repository).getD "default",
          status := "running", progress := 0 }]

/-- The second half of `start_backup`: once `run_backup` returns, the
job row becomes `completed` (progress 100) on success or `failed`. -/
def finishBackup (s : List BackupJob) (jid : Nat) (ok : Bool) : List BackupJob :=
  s.map fun j =>
    if j.id == jid then
      if ok then { j with status := "completed", progress := 100 }
      else { j with status := "failed" }
    else j

/-- `cancel_backup` (`app/api/backup.py:143`): only a `running` job is
marked `cancelled`. -/
def cancelBackup (s : List BackupJob) (jid : Nat) : List BackupJob :=
  s.map fun j =>
    if j.id == jid && j.status == "running" then { j with status := "cancelled" }
    else j

/-- States of the `BackupJob` table reachable through the API handlers.
`beginBackup` and `finishBackup` are separate steps because
`start_backup` awaits the backup between them, so two requests can both
be past `beginBackup` at once. -/
inductive ReachableJobs : List BackupJob → Prop where
  | init : ReachableJobs []
  | step_begin (s : List BackupJob) (repository : Option String) :
      ReachableJobs s → ReachableJobs (beginBackup s repository)
  | step_finish (s : List BackupJob) (jid : Nat) (ok : Bool) :
      ReachableJobs s → ReachableJobs (finishBackup s jid ok)
  | step_cancel (s : List BackupJob) (jid : Nat) :
      ReachableJobs s → ReachableJobs (cancelBackup s jid)

/-- Number of jobs with `status == "running"` for a repository. -/
def runningCount (s : List BackupJob) (repo : String) : Nat :=
  (s.filter fun j => j.repository == repo && j.status == "running").length

/-! ## Scheduler (`app/api/schedule.py`) -/

/-- A `ScheduledJob` row, fields as touched by the scheduler and the
update/run-now handlers. Timestamps are abstract `Nat` instants. -/
structure SchedJob where
  id : Nat
  name : String
  cron_expression : String
  repository : Option String
  config_file : Option String
  enabled : Bool
  last_run : Option Nat
  next_run : Option Nat
  updated_at : Option Nat
  deriving DecidableEq, Repr

/-- The due-jobs filter of `check_scheduled_jobs`:
`enabled == True AND next_run <= now` (a NULL `next_run` never compares). -/
def isDue (job : SchedJob) (now : Nat) : Bool :=
  job.enabled && match job.next_run with
    | some t => t ≤ now
    | none => false

/-- The body of the `try:` block in the `for job in jobs:` loop of
`check_scheduled_jobs`. `beh` is the combined outcome of
`borgmatic.run_backup` plus the `db.commit()` persisting the update:
`.error` means some step raised. On success, `last_run = now` and
`next_run` is recomputed from the cron expression at `now` —
`cronNext e t` stands for `croniter(e, t).get_next()`. -/
def runJobRaw (beh : SchedJob → Except String CommandResult) (now : Nat)
    (cronNext : String → Nat → Nat) (job : SchedJob) : Except String SchedJob :=
  match beh job with
  | .ok _ =>
      .ok { job with last_run := some now,
                     next_run := some (cronNext job.cron_expression now) }
  | .error e => .error e

/-- The `try:`/`except:` of the per-job loop: a raised error is caught,
logged, and `last_run` is still recorded. -/
def runJobCaught (beh : SchedJob → Except String CommandResult) (now : Nat)
    (cronNext : String → Nat → Nat) (job : SchedJob) : SchedJob :=
  match runJobRaw beh now cronNext job with
  | .ok j => j
  | .error _ => { job with last_run := some now }

/-- The `for job in jobs:` loop of `check_scheduled_jobs` as written
(lines 498-523), over the due-jobs list: due jobs are processed (with
per-job catching), others are untouched. At runtime this loop body is
unreachable — the due-jobs query above it raises `NameError` first (see
`checkScheduledJobsPass`). -/
def pollingPass (beh : SchedJob → Except String CommandResult) (now : Nat)
    (cronNext : String → Nat → Nat) (jobs : List SchedJob) : List SchedJob :=
  jobs.map fun j => if isDue j now then runJobCaught beh now cronNext j else j

/-- The body of `run_scheduled_job_now` after its job lookup
(`app/api/schedule.py:429-437`) as written: after the backup call, only
`last_run` and `updated_at` are set; `next_run` is not recomputed. At
runtime these lines are unreachable — the lookup raises `NameError`
first (see `runScheduledJobNow`). -/
def runNow (job : SchedJob) (now : Nat) : SchedJob :=
  { job with last_run := some now, updated_at := some now }

/-- The `cron_expression is not None` branch of `update_scheduled_job`
(`app/api/schedule.py:315-322`) followed by the final `updated_at`
write, as written: `cronValid` models whether `croniter(expr, now)`
construction succeeds; on failure the handler raises HTTP 400 (`none`),
on success the new `next_run` comes from the new expression evaluated
at `now`. At runtime this branch is unreachable — the job lookup above
it raises `NameError` first (see `updateScheduledJobHandler`). -/
def updateCron (job : SchedJob) (newExpr : String) (now : Nat)
    (cronNext : String → Nat → Nat) (cronValid : String → Bool) : Option SchedJob :=
  if cronValid newExpr then
    some { job with cron_expression := newExpr,
                    next_run := some (cronNext newExpr now),
                    updated_at := some now }
  else none

/-- Database-entity name resolution in `app/api/schedule.py`'s module
namespace: the module imports `User` (line 12) and defines the Pydantic
classes `ScheduledJobCreate`, `ScheduledJobUpdate` and `CronExpression`
— but the ORM name `ScheduledJob`, used in every `db.query(...)` of the
file, is neither imported nor defined there (the ORM model was removed;
`app/api/dashboard.py:128` reads "TODO: Implement when ScheduledJob
model is added back"). -/
def scheduleNameBound (n : String) : Bool :=
  n == "User" || n == "ScheduledJobCreate" || n == "ScheduledJobUpdate"
    || n == "CronExpression"

/-- Evaluating a name in the module namespace: an unbound name raises
`NameError`. -/
def resolveScheduleName (n : String) : Except String Unit :=
  if scheduleNameBound n then .ok ()
  else .error ("NameError: name " ++ n ++ " is not defined")

/-- `run_scheduled_job_now` (`app/api/schedule.py:413-450`) as actually
executed: its first statement `db.query(ScheduledJob)...` evaluates the
unbound name `ScheduledJob` and raises `NameError`, which the handler's
`except Exception` converts to an HTTP 500; the job table is never
touched. The arm behind the lookup embeds the dead lines 429-437. -/
def runScheduledJobNow (jobs : List SchedJob) (jobId : Nat) (now : Nat) :
    List SchedJob × Except String Unit :=
  match resolveScheduleName "ScheduledJob" with
  | .error e => (jobs, .error e)
  | .ok _ => (jobs.map fun j => if j.id == jobId then runNow j now else j, .ok ())

/-- One iteration of `check_scheduled_jobs` (`app/api/schedule.py:488`)
as actually executed: the due-jobs query raises `NameError` at the
unbound `ScheduledJob`, the outer `except` catches and logs it, and the
loop sleeps until the next pass — the job table is never touched. The
arm behind the lookup embeds the written per-job loop. -/
def checkScheduledJobsPass (jobs : List SchedJob) (now : Nat)
    (beh : SchedJob → Except String CommandResult)
    (cronNext : String → Nat → Nat) : List SchedJob :=
  match resolveScheduleName "ScheduledJob" with
  | .error _ => jobs
  | .ok _ => pollingPass beh now cronNext jobs

/-- `update_scheduled_job` (`app/api/schedule.py:288-349`) as actually
executed: the job lookup raises `NameError` at the unbound
`ScheduledJob`, converted to an HTTP 500; no field is updated and no
`next_run` is recomputed. The arm behind the lookup embeds the written
cron-update branch (an invalid expression leaving the job unchanged
models the HTTP 400 rejection). -/
def updateScheduledJobHandler (jobs : List SchedJob) (jobId : Nat)
    (newExpr : String) (now : Nat) (cronNext : String → Nat → Nat)
    (cronValid : String → Bool) : List SchedJob × Except String Unit :=
  match resolveScheduleName "ScheduledJob" with
  | .error e => (jobs, .error e)
  | .ok _ =>
      (jobs.map fun j =>
        if j.id == jobId then (updateCron j newExpr now cronNext cronValid).getD j
        else j, .ok ())

/-! ## EventManager (`app/api/events.py`) -/

/-- An event dictionary built by `broadcast_event`. -/
structure Event where
  etype : String
  payload : String
  timestamp : Nat
  deriving DecidableEq, Repr

/-- `EventManager.add_connection`: `self.connections[user_id] = Queue()`
— dict assignment, replacing any prior queue under the same key. -/
def addConnection : List (String × List Event) → String → List (String × List Event)
  | [], uid => [(uid, [])]
  | p :: rest, uid =>
      if p.1 == uid then (uid, []) :: rest else p :: addConnection rest uid

/-- `EventManager.remove_connection`: `del self.connections[user_id]`
when present. -/
def removeConnection : List (String × List Event) → String → List (String × List Event)
  | [], _ => []
  | p :: rest, uid => if p.1 == uid then rest else p :: removeConnection rest uid

/-- Dict lookup `self.connections.get(user_id)`. -/
def lookupConn : List (String × List Event) → String → Option (List Event)
  | [], _ => none
  | p :: rest, uid => if p.1 == uid then some p.2 else lookupConn rest uid

/-- Enqueue onto the queue registered under `uid` (first matching entry,
as in a dict). -/
def enqueueTo : List (String × List Event) → String → Event → List (String × List Event)
  | [], _, _ => []
  | p :: rest, uid, ev =>
      if p.1 == uid then (p.1, p.2 ++ [ev]) :: rest else p :: enqueueTo rest uid ev

/-- `EventManager.broadcast_event`: with a `user_id` target, enqueue
onto that subscriber's queue only when it is registered (`if user_id in
self.connections:` — silently a no-op otherwise); with no target,
enqueue onto every registered queue. -/
def broadcastEvent (conns : List (String × List Event)) (ev : Event)
    (target : Option String) : List (String × List Event) :=
  match target with
  | some uid =>
      if (lookupConn conns uid).isSome then enqueueTo conns uid ev else conns
  | none => conns.map fun p => (p.1, p.2 ++ [ev])

/-! ## `event_generator` (`app/api/events.py:79`) -/

/-- One iteration of the generator's `while True` loop, as seen from the
queue: an event arrived, `asyncio.wait_for` timed out (keepalive), or
the iteration raised (the `except ... break`). -/
inductive PollStep where
  | ev : Event → PollStep
  | timeout : PollStep
  | err : PollStep
  deriving DecidableEq, Repr

/-- An item yielded by `event_generator` (SSE text formatting abstracted). -/
inductive SseItem where
  | connEstablished : SseItem
  | data : Event → SseItem
  | keepalive : SseItem
  deriving DecidableEq, Repr

/-- The yields of the `while True:` loop of `event_generator` over an
observed finite sequence of queue outcomes; `.err` breaks the loop, an
exhausted list models the consumer disconnecting. -/
def drainLoop : List PollStep → List SseItem
  | [] => []
  | .ev e :: rest => .data e :: drainLoop rest
  | .timeout :: rest => .keepalive :: drainLoop rest
  | .err :: _ => []

/-- `event_generator user_id`: registers a fresh queue, yields the
`connection_established` event first, then the drained items, and the
`finally:` removes the connection however the generator ends. Returns
the yielded items and the final registry. -/
def runEventGenerator (conns : List (String × List Event)) (uid : String)
    (steps : List PollStep) : List SseItem × List (String × List Event) :=
  let conns1 := addConnection conns uid
  (SseItem.connEstablished :: drainLoop steps, removeConnection conns1 uid)

/-! ## Theorems -/

/-- Every character of the allow-list `[a-zA-Z0-9/._-]` is outside the
dangerous class `[;&|`$\\]`, so the regex allow-list check subsumes the
dangerous-character check. -/
theorem allowed_char_not_dangerous (c : Char) (h : isAllowedChar c = true) :
    isDangerousChar c = false := by
  simp only [isAllowedChar, Bool.or_eq_true, Bool.and_eq_true, decide_eq_true_eq,
    beq_iff_eq] at h
  simp only [isDangerousChar, Bool.or_eq_false_iff, beq_eq_false_iff_ne, ne_eq]
  omega

/-- C3: `_execute_command` never raises: a timeout yields a result with
`success = false`, return code `-1` and the synthetic
`"Command timed out after N seconds"` stderr; a launch failure yields
`success = false`, return code `-1` and the exception text as stderr. -/
theorem executeCommand_failure_outcomes (cmd : List String) (timeout : Nat)
    (msg : String) :
    ((executeCommand cmd timeout .timedOut).success = false
      ∧ (executeCommand cmd timeout .timedOut).return_code = -1
      ∧ (executeCommand cmd timeout .timedOut).stderr =
          "Command timed out after " ++ toString timeout ++ " seconds")
  ∧ ((executeCommand cmd timeout (.launchFailure msg)).success = false
      ∧ (executeCommand cmd timeout (.launchFailure msg)).return_code = -1
      ∧ (executeCommand cmd timeout (.launchFailure msg)).stderr = msg) :=
  ⟨⟨rfl, rfl, rfl⟩, ⟨rfl, rfl, rfl⟩⟩

/-- The `/`-separated segments of a path (to express what a parent
directory traversal segment `..` is, as the spec words it). -/
def splitSegments : List Char → List (List Char)
  | [] => [[]]
  | c :: cs =>
      let rest := splitSegments cs
      if c == '/' then [] :: rest
      else match rest with
        | [] => [[c]]
        | s :: ss => (c :: s) :: ss

/-- C4 counterexample: `"a..b"` is built only from allow-list characters
and has no `..` segment (its only `/`-segment is `"a..b"` itself), yet
`_validate_path` rejects it, because the code tests `'..' in path` as a
substring. -/
theorem validate_rejects_inner_dotdot :
    ("a..b".data.all isAllowedChar = true)
  ∧ (splitSegments "a..b".data = ["a..b".data])
  ∧ (splitSegments "a..b".data).all (fun s => !(s == ['.', '.'])) = true
  ∧ isValidPath "a..b" = false := by
  refine ⟨by decide, by decide, by decide, by decide⟩

/-- A list of allow-list characters contains no dangerous character. -/
theorem no_danger_of_all_allowed (l : List Char)
    (h : l.all isAllowedChar = true) : l.any isDangerousChar = false := by
  rcases hb : l.any isDangerousChar with _ | _
  · rfl
  · rcases List.any_eq_true.mp hb with ⟨x, hx, hxd⟩
    have hx2 := allowed_char_not_dangerous x (List.all_eq_true.mp h x hx)
    rw [hx2] at hxd
    cases hxd

/-- If the regex body (the string minus an optional trailing newline)
is all allow-list characters, the whole string contains no dangerous
character — a newline is not in `[;&|`$\\]`. -/
theorem strip_all_no_danger (cs : List Char)
    (h : (stripTrailingNewline cs).all isAllowedChar = true) :
    cs.any isDangerousChar = false := by
  rcases List.eq_nil_or_concat cs with rfl | ⟨body, c, rfl⟩
  · rfl
  · simp only [List.concat_eq_append] at h ⊢
    rcases hc : c.toNat == 10 with _ | _
    · have hstrip : stripTrailingNewline (body ++ [c]) = body ++ [c] := by
        simp [stripTrailingNewline, List.getLast?_concat, List.dropLast_concat, hc]
      rw [hstrip] at h
      exact no_danger_of_all_allowed (body ++ [c]) h
    · have hstrip : stripTrailingNewline (body ++ [c]) = body := by
        simp [stripTrailingNewline, List.getLast?_concat, List.dropLast_concat, hc]
      rw [hstrip] at h
      have hc10 : c.toNat = 10 := by simpa using hc
      have h2 : [c].any isDangerousChar = false := by
        simp [isDangerousChar, hc10]
      rw [List.any_append, no_danger_of_all_allowed body h, h2]
      rfl

/-- The `$` tolerance in action: `_validate_path` accepts an allow-list
string carrying one trailing newline. -/
theorem validate_accepts_trailing_newline : isValidPath "abc\n" = true := by
  decide

/-- C4 (amended): `_validate_path` accepts exactly the strings that,
after dropping a single trailing newline (tolerated by `re.match`'s
`$`), are nonempty strings of allow-list characters — provided the
string does not start with `/` and does not contain `..` as a substring
(anywhere, even inside a single segment); every string containing a
shell metacharacter, a `..` substring, a leading `/`, or a character
other than the allow-list and the tolerated trailing newline is
rejected. -/
theorem validate_path_characterization (p : String) :
    isValidPath p =
      (!(stripTrailingNewline p.data).isEmpty && !containsDotDot p
        && !startsWithSlash p.data
        && (stripTrailingNewline p.data).all isAllowedChar) := by
  unfold isValidPath matchesAllowRegex
  by_cases h1 : p.data.isEmpty
  · have hnil : p.data = [] := by simpa using h1
    simp [hnil, stripTrailingNewline]
  · simp only [h1, if_false]
    by_cases h2 : p.data.any isDangerousChar
    · simp only [h2, if_true]
      have hall : (stripTrailingNewline p.data).all isAllowedChar = false := by
        rcases hA : (stripTrailingNewline p.data).all isAllowedChar with _ | _
        · rfl
        · have hfalse := strip_all_no_danger p.data hA
          rw [h2] at hfalse
          exact hfalse
      simp [hall]
    · simp only [h2, if_false]
      rcases hdd : containsDotDot p with _ | _
      · rcases hsw : startsWithSlash p.data with _ | _
        · simp [hdd, hsw]
        · simp [hdd, hsw]
      · simp [hdd]

/-- C2 counterexample: `"bad;repo"` fails `_validate_path`, yet
`check_repository` builds and spawns a command containing it verbatim —
no validation, no `success=false` short-circuit. -/
theorem check_repository_skips_validation :
    isValidPath "bad;repo" = false
  ∧ checkRepositoryCmd "bad;repo" =
      .inr ["borgmatic", "check", "--repository", "bad;repo"] :=
  ⟨by decide, rfl⟩

/-- C2 (amended): only `run_backup` and `list_archives` validate their
user-supplied identifiers before building the command (an invalid
identifier short-circuits into a `success=false` result with no process
spawned); `info_archive`, `extract_archive`, `delete_archive`,
`prune_archives`, `check_repository` and `compact_repository` place the
raw identifier into the spawned command even when it fails validation. -/
theorem sanitizer_application_per_operation (r : String)
    (hr : isValidPath r = false) (hne : r.data.isEmpty = false)
    (cfg : Option String) (cp archive dest : String) (paths : List String)
    (dr : Bool) (kd kw km ky : Nat) :
    (∃ res, listArchivesCmd r = .inl res ∧ res.success = false)
  ∧ (∃ res, runBackupCmd (some r) cfg cp = .inl res ∧ res.success = false)
  ∧ (∃ cmd, infoArchiveCmd r archive = .inr cmd ∧ r ∈ cmd)
  ∧ (∃ cmd, extractArchiveCmd r archive paths dest dr = .inr cmd ∧ r ∈ cmd)
  ∧ (∃ cmd, deleteArchiveCmd r archive = .inr cmd ∧ r ∈ cmd)
  ∧ (∃ cmd, pruneArchivesCmd r kd kw km ky = .inr cmd ∧ r ∈ cmd)
  ∧ (∃ cmd, checkRepositoryCmd r = .inr cmd ∧ r ∈ cmd)
  ∧ (∃ cmd, compactRepositoryCmd r = .inr cmd ∧ r ∈ cmd) := by
  refine ⟨⟨invalidPathResult
        "Invalid repository path: contains dangerous characters", ?_, rfl⟩,
    ⟨invalidPathResult
        "Invalid repository path: contains dangerous characters", ?_, rfl⟩,
    ⟨_, rfl, ?_⟩, ⟨_, rfl, ?_⟩,
    ⟨_, rfl, ?_⟩, ⟨_, rfl, ?_⟩, ⟨_, rfl, ?_⟩, ⟨_, rfl, ?_⟩⟩
  · simp [listArchivesCmd, hr]
  · simp [runBackupCmd, optTruthy, hne, hr]
  · simp [infoArchiveCmd]
  · simp [extractArchiveCmd]
  · simp [deleteArchiveCmd]
  · simp [pruneArchivesCmd]
  · simp [checkRepositoryCmd]
  · simp [compactRepositoryCmd]

/-- Witness for `sanitizer_application_per_operation` at the concrete
invalid identifier `"bad;repo"`. -/
theorem sanitizer_application_per_operation_witness :
    isValidPath "bad;repo" = false ∧ "bad;repo".data.isEmpty = false ∧
    (∃ cmd, checkRepositoryCmd "bad;repo" = .inr cmd ∧ "bad;repo" ∈ cmd) :=
  ⟨by decide, by decide,
    (sanitizer_application_per_operation "bad;repo" (by decide) (by decide)
      none "" "a1" "restore" [] false 7 4 6 1).2.2.2.2.2.2.1⟩

/-- C1 counterexample: from the empty table, two `start_backup` requests
for `"repo1"` can both pass the job-creation step (the code has no
"already running" check), reaching a state with two `running` jobs for
the same repository. -/
theorem two_running_jobs_reachable :
    ReachableJobs (beginBackup (beginBackup [] (some "repo1")) (some "repo1"))
  ∧ runningCount (beginBackup (beginBackup [] (some "repo1")) (some "repo1"))
      "repo1" = 2 :=
  ⟨.step_begin _ _ (.step_begin _ _ .init), by decide⟩

/-- C1 (amended): `start_backup` performs no per-repository
serialization: every call unconditionally inserts one more `running`
job for its repository, whatever the current state, and never produces
an "already running" failure. -/
theorem start_backup_always_adds_running (s : List BackupJob) (repo : String)
    (hne : repo.data.isEmpty = false) :
    runningCount (beginBackup s (some repo)) repo = runningCount s repo + 1
  ∧ (beginBackup s (some repo)).length = s.length + 1 := by
  constructor
  · simp [runningCount, beginBackup, optTruthy, hne, List.filter_append]
  · simp [beginBackup]

/-- Witness for `start_backup_always_adds_running`: a second request on
a state that already has a running job for `"repo1"`. -/
theorem start_backup_always_adds_running_witness :
    "repo1".data.isEmpty = false
  ∧ runningCount (beginBackup (beginBackup [] (some "repo1")) (some "repo1"))
      "repo1" = runningCount (beginBackup [] (some "repo1")) "repo1" + 1 :=
  ⟨by decide,
    (start_backup_always_adds_running (beginBackup [] (some "repo1")) "repo1"
      (by decide)).1⟩

/-- A successful `CommandResult`, used as a concrete fixture. -/
def okResult : CommandResult :=
  { return_code := 0, stdout := "", stderr := "", success := true }

/-- A concrete `ScheduledJob` fixture with a stale `next_run`. -/
def sampleJob : SchedJob :=
  { id := 1, name := "nightly", cron_expression := "0 2 * * *",
    repository := some "repo1", config_file := none, enabled := true,
    last_run := none, next_run := some 0, updated_at := none }

/-- A concrete stand-in for `croniter(expr, t).get_next()`. -/
def hourlyNext : String → Nat → Nat := fun _ t => t + 60

/-- C5 counterexample: in the program as shipped neither path records
anything: `run_scheduled_job_now` on the due job raises `NameError` at
its `ScheduledJob` query (surfaced as HTTP 500) and the scheduler pass
raises the same `NameError` at its due-jobs query, so after both
operations the job still has `last_run = none` and its stale
`next_run` — refuting "both record last_run and perform the same
next_run bookkeeping". -/
theorem manual_run_records_no_last_run :
    (runScheduledJobNow [sampleJob] 1 100).1 = [sampleJob]
  ∧ (runScheduledJobNow [sampleJob] 1 100).2 =
      .error "NameError: name ScheduledJob is not defined"
  ∧ checkScheduledJobsPass [sampleJob] 100 (fun _ => .ok okResult) hourlyNext =
      [sampleJob]
  ∧ isDue sampleJob 100 = true
  ∧ sampleJob.last_run = none := by
  refine ⟨rfl, rfl, rfl, by decide, rfl⟩

/-- C5 (amended): a manual run and a scheduler pass are
indistinguishable in their effect on job state only because both leave
it entirely unchanged: `run_scheduled_job_now` raises `NameError` at
the unbound `ScheduledJob` and returns HTTP 500, and
`check_scheduled_jobs` raises the same `NameError` at its due-jobs
query (caught by its outer handler) — neither records `last_run` nor
performs any `next_run` bookkeeping. -/
theorem run_now_and_scheduler_leave_state_unchanged (jobs : List SchedJob)
    (jobId : Nat) (now : Nat) (beh : SchedJob → Except String CommandResult)
    (cronNext : String → Nat → Nat) :
    (runScheduledJobNow jobs jobId now).1 = jobs
  ∧ (runScheduledJobNow jobs jobId now).2 =
      .error "NameError: name ScheduledJob is not defined"
  ∧ checkScheduledJobsPass jobs now beh cronNext = jobs :=
  ⟨rfl, rfl, rfl⟩

/-- The written (unreachable) bodies themselves already disagree: a
successful run of the written per-job loop body records
`last_run = now`, recomputes `next_run` at the current time and leaves
`updated_at` alone, while the written run-now body records
`last_run = now`, leaves `next_run` stale and sets `updated_at`. -/
theorem run_now_vs_scheduler_bookkeeping (job : SchedJob) (now : Nat)
    (cronNext : String → Nat → Nat) (r : CommandResult) :
    (runNow job now).last_run = some now
  ∧ (runJobCaught (fun _ => .ok r) now cronNext job).last_run = some now
  ∧ (runNow job now).next_run = job.next_run
  ∧ (runJobCaught (fun _ => .ok r) now cronNext job).next_run =
      some (cronNext job.cron_expression now)
  ∧ (runNow job now).updated_at = some now
  ∧ (runJobCaught (fun _ => .ok r) now cronNext job).updated_at = job.updated_at :=
  ⟨rfl, rfl, rfl, rfl, rfl, rfl⟩

/-- A second concrete `ScheduledJob` fixture. -/
def sampleJob2 : SchedJob :=
  { id := 2, name := "weekly", cron_expression := "0 0 * * 0",
    repository := some "repo2", config_file := none, enabled := true,
    last_run := none, next_run := some 50, updated_at := none }

/-- Fixture behavior: `sampleJob2`'s execution raises, every other job
succeeds. -/
def behFail : SchedJob → Except String CommandResult :=
  fun j => if j == sampleJob2 then .error "boom" else .ok okResult

/-- Fixture behavior: every job succeeds. -/
def behOk : SchedJob → Except String CommandResult := fun _ => .ok okResult

/-- The written per-job loop (unreachable at runtime, see
`checkScheduledJobsPass`): a job whose execution or persistence raises
is caught per-job — its `last_run` is still recorded, the pass still
produces an entry for every job, and every other job's outcome is
exactly what it would have been had the failing job not failed
(comparing against any behavior that agrees outside the failing job). -/
theorem scheduler_pass_catches_per_job (jobs : List SchedJob)
    (beh okBeh : SchedJob → Except String CommandResult) (now : Nat)
    (cronNext : String → Nat → Nat) (e : String) (j₀ : SchedJob)
    (h₀ : beh j₀ = .error e) (hagree : ∀ j, j ≠ j₀ → okBeh j = beh j) :
    (pollingPass beh now cronNext jobs).length = jobs.length
  ∧ (runJobCaught beh now cronNext j₀).last_run = some now
  ∧ (∀ i j, jobs.get? i = some j → j ≠ j₀ →
      (pollingPass beh now cronNext jobs).get? i =
        (pollingPass okBeh now cronNext jobs).get? i) := by
  refine ⟨by simp [pollingPass], ?_, ?_⟩
  · simp [runJobCaught, runJobRaw, h₀]
  · intro i j hij hj
    rw [List.get?_eq_getElem?] at hij
    have hb : okBeh j = beh j := hagree j hj
    simp only [pollingPass, List.get?_eq_getElem?, List.getElem?_map, hij]
    simp [runJobCaught, runJobRaw, hb]

/-- Concrete instance of `scheduler_pass_catches_per_job`: a two-job
pass of the written loop at time 100 in which `sampleJob2` raises and
`sampleJob` is still processed. -/
theorem scheduler_pass_catches_per_job_witness :
    behFail sampleJob2 = .error "boom"
  ∧ (∀ j, j ≠ sampleJob2 → behOk j = behFail j)
  ∧ (pollingPass behFail 100 hourlyNext [sampleJob, sampleJob2]).length = 2
  ∧ (runJobCaught behFail 100 hourlyNext sampleJob2).last_run = some 100 := by
  have hagree : ∀ j, j ≠ sampleJob2 → behOk j = behFail j := by
    intro j hj
    simp [behOk, behFail, hj]
  have h := scheduler_pass_catches_per_job [sampleJob, sampleJob2] behFail behOk
    100 hourlyNext "boom" sampleJob2 rfl hagree
  exact ⟨rfl, hagree, h.1, h.2.1⟩

/-- C7 (code bug): the program never exercises the written per-job
catch: `check_scheduled_jobs` raises `NameError` at its due-jobs query
before any job is reached, the outer `except` catches it, and no due
job is processed — here a due, enabled job (`next_run = 0 ≤ 100`) comes
through a whole pass with its `last_run` still unset. -/
theorem due_job_never_processed :
    isDue sampleJob 100 = true
  ∧ sampleJob.last_run = none
  ∧ checkScheduledJobsPass [sampleJob] 100 behFail hourlyNext = [sampleJob]
  ∧ resolveScheduleName "ScheduledJob" =
      .error "NameError: name ScheduledJob is not defined" := by
  refine ⟨by decide, rfl, rfl, rfl⟩

/-- The written recomputation sites (unreachable at runtime, see
`checkScheduledJobsPass` and `updateScheduledJobHandler`): both
evaluate the cron expression at the current time, never at the stale
prior `next_run` — a successful run of the written loop body sets
`next_run = cronNext expr now` whatever the stale value was, and the
written cron-update branch sets `next_run = cronNext newExpr now`. -/
theorem next_run_recomputed_from_now (job : SchedJob) (now : Nat)
    (cronNext : String → Nat → Nat) (r : CommandResult)
    (stale stale' : Option Nat) (e : String) (cronValid : String → Bool)
    (hv : cronValid e = true) :
    (runJobCaught (fun _ => .ok r) now cronNext
        { job with next_run := stale }).next_run =
      some (cronNext job.cron_expression now)
  ∧ (runJobCaught (fun _ => .ok r) now cronNext
        { job with next_run := stale }).next_run =
      (runJobCaught (fun _ => .ok r) now cronNext
        { job with next_run := stale' }).next_run
  ∧ (∀ j', updateCron job e now cronNext cronValid = some j' →
      j'.next_run = some (cronNext e now)) := by
  refine ⟨rfl, rfl, ?_⟩
  intro j' hj
  simp only [updateCron, hv, if_true, Option.some_inj] at hj
  rw [← hj]

/-- Concrete instance of `next_run_recomputed_from_now` with two
different stale `next_run` values (still about the written, unreachable
sites). -/
theorem next_run_recomputed_from_now_witness :
    ((fun _ : String => true) "*/5 * * * *" = true)
  ∧ (runJobCaught (fun _ => .ok okResult) 100 hourlyNext
        { sampleJob with next_run := some 0 }).next_run =
      some (hourlyNext sampleJob.cron_expression 100) :=
  ⟨rfl,
    (next_run_recomputed_from_now sampleJob 100 hourlyNext okResult
      (some 0) (some 7) "*/5 * * * *" (fun _ => true) rfl).1⟩

/-- C8 (code bug): the recomputation the claim describes never runs:
updating job 1's cron expression to a new valid one raises `NameError`
at the handler's `ScheduledJob` lookup (surfaced as HTTP 500), leaving
the job's stale `next_run` untouched — `croniter` is never consulted;
the scheduler-side site is unreachable the same way. -/
theorem update_cron_never_recomputes :
    (updateScheduledJobHandler [sampleJob] 1 "*/5 * * * *" 100 hourlyNext
        (fun _ => true)).1 = [sampleJob]
  ∧ (updateScheduledJobHandler [sampleJob] 1 "*/5 * * * *" 100 hourlyNext
        (fun _ => true)).2 =
      .error "NameError: name ScheduledJob is not defined"
  ∧ sampleJob.next_run = some 0 :=
  ⟨rfl, rfl, rfl⟩

/-- A key that is not among the registry's keys has no queue. -/
theorem lookupConn_not_mem (conns : List (String × List Event)) (uid : String)
    (h : uid ∉ conns.map Prod.fst) : lookupConn conns uid = none := by
  induction conns with
  | nil => rfl
  | cons p rest ih =>
      simp only [List.map_cons, List.mem_cons, not_or] at h
      have hp : (p.1 == uid) = false := by
        simp only [beq_eq_false_iff_ne, ne_eq]
        exact fun hc => h.1 hc.symm
      simp only [lookupConn, hp, Bool.false_eq_true, if_false]
      exact ih h.2

/-- Enqueueing onto `uid`'s queue appends to it. -/
theorem lookupConn_enqueue_self (conns : List (String × List Event))
    (uid : String) (ev : Event) (q : List Event)
    (h : lookupConn conns uid = some q) :
    lookupConn (enqueueTo conns uid ev) uid = some (q ++ [ev]) := by
  induction conns with
  | nil => simp [lookupConn] at h
  | cons p rest ih =>
      rcases hp : p.1 == uid with _ | _
      · simp only [lookupConn, hp, Bool.false_eq_true, if_false] at h
        simp only [enqueueTo, hp, Bool.false_eq_true, if_false, lookupConn]
        exact ih h
      · simp only [lookupConn, hp, if_true, Option.some_inj] at h
        simp only [enqueueTo, hp, if_true, lookupConn, Option.some_inj]
        rw [h]

/-- Enqueueing onto `uid`'s queue leaves every other key's queue alone. -/
theorem lookupConn_enqueue_other (conns : List (String × List Event))
    (uid uid' : String) (ev : Event) (h : uid' ≠ uid) :
    lookupConn (enqueueTo conns uid ev) uid' = lookupConn conns uid' := by
  induction conns with
  | nil => rfl
  | cons p rest ih =>
      rcases hp : p.1 == uid with _ | _
      · simp only [enqueueTo, hp, Bool.false_eq_true, if_false, lookupConn]
        rcases hp' : p.1 == uid' with _ | _
        · simp only [Bool.false_eq_true, if_false]
          exact ih
        · simp
      · have hpe : p.1 = uid := by
          have := hp
          simpa [beq_iff_eq] using this
        have hp' : (p.1 == uid') = false := by
          simp only [beq_eq_false_iff_ne, ne_eq, hpe]
          exact fun hc => h hc.symm
        simp only [enqueueTo, hp, if_true, lookupConn, hp', Bool.false_eq_true,
          if_false]

/-- Enqueueing for an unregistered key changes nothing. -/
theorem enqueue_unregistered (conns : List (String × List Event)) (uid : String)
    (ev : Event) (h : lookupConn conns uid = none) :
    enqueueTo conns uid ev = conns := by
  induction conns with
  | nil => rfl
  | cons p rest ih =>
      rcases hp : p.1 == uid with _ | _
      · simp only [lookupConn, hp, Bool.false_eq_true, if_false] at h
        simp only [enqueueTo, hp, Bool.false_eq_true, if_false]
        rw [ih h]
      · simp [lookupConn, hp] at h

/-- Broadcast-to-all appends the event to whichever queue a key has. -/
theorem lookupConn_broadcast_all (conns : List (String × List Event))
    (ev : Event) (uid : String) :
    lookupConn (conns.map fun p => (p.1, p.2 ++ [ev])) uid =
      (lookupConn conns uid).map (fun q => q ++ [ev]) := by
  induction conns with
  | nil => rfl
  | cons p rest ih =>
      rcases hp : p.1 == uid with _ | _
      · simp only [List.map_cons, lookupConn, hp, Bool.false_eq_true, if_false]
        exact ih
      · simp [List.map_cons, lookupConn, hp]

/-- With unique keys, removing a connection leaves no queue under it. -/
theorem lookupConn_remove_self (conns : List (String × List Event))
    (uid : String) (hnd : (conns.map Prod.fst).Nodup) :
    lookupConn (removeConnection conns uid) uid = none := by
  induction conns with
  | nil => rfl
  | cons p rest ih =>
      simp only [List.map_cons, List.nodup_cons] at hnd
      rcases hp : p.1 == uid with _ | _
      · simp only [removeConnection, hp, Bool.false_eq_true, if_false, lookupConn]
        exact ih hnd.2
      · have hpe : p.1 = uid := by simpa [beq_iff_eq] using hp
        simp only [removeConnection, hp, if_true]
        refine lookupConn_not_mem rest uid ?_
        rw [← hpe]
        exact hnd.1

/-- `add_connection` registers a fresh empty queue under the key. -/
theorem lookupConn_add_self (conns : List (String × List Event)) (uid : String) :
    lookupConn (addConnection conns uid) uid = some [] := by
  induction conns with
  | nil => simp [addConnection, lookupConn]
  | cons p rest ih =>
      rcases hp : p.1 == uid with _ | _
      · simp only [addConnection, hp, Bool.false_eq_true, if_false, lookupConn]
        exact ih
      · simp [addConnection, hp, lookupConn]

/-- With unique keys, the `finally:` removal after an `add_connection`
leaves the key unregistered. -/
theorem lookupConn_remove_add (conns : List (String × List Event)) (uid : String)
    (hnd : (conns.map Prod.fst).Nodup) :
    lookupConn (removeConnection (addConnection conns uid) uid) uid = none := by
  induction conns with
  | nil => simp [addConnection, removeConnection, lookupConn]
  | cons p rest ih =>
      simp only [List.map_cons, List.nodup_cons] at hnd
      rcases hp : p.1 == uid with _ | _
      · simp only [addConnection, hp, Bool.false_eq_true, if_false,
          removeConnection, lookupConn]
        exact ih hnd.2
      · have hpe : p.1 = uid := by simpa [beq_iff_eq] using hp
        simp only [addConnection, hp, if_true, removeConnection,
          beq_self_eq_true, if_true]
        refine lookupConn_not_mem rest uid ?_
        rw [← hpe]
        exact hnd.1

/-- C9: targeted publish enqueues only onto the targeted subscriber's
queue, is a no-op when the target is unregistered, and untargeted
publish enqueues onto every registered subscriber's queue and onto no
queue of a subscriber removed beforehand. -/
theorem event_bus_publish_semantics (conns : List (String × List Event))
    (ev : Event) (uid : String) (hnd : (conns.map Prod.fst).Nodup) :
    (∀ q, lookupConn conns uid = some q →
        lookupConn (broadcastEvent conns ev (some uid)) uid = some (q ++ [ev])
      ∧ ∀ uid', uid' ≠ uid →
          lookupConn (broadcastEvent conns ev (some uid)) uid' =
            lookupConn conns uid')
  ∧ (lookupConn conns uid = none → broadcastEvent conns ev (some uid) = conns)
  ∧ (∀ uid' q, lookupConn conns uid' = some q →
      lookupConn (broadcastEvent conns ev none) uid' = some (q ++ [ev]))
  ∧ lookupConn (broadcastEvent (removeConnection conns uid) ev none) uid = none := by
  refine ⟨?_, ?_, ?_, ?_⟩
  · intro q hq
    have hsome : (lookupConn conns uid).isSome = true := by rw [hq]; rfl
    constructor
    · simp only [broadcastEvent, hsome, if_true]
      exact lookupConn_enqueue_self conns uid ev q hq
    · intro uid' h
      simp only [broadcastEvent, hsome, if_true]
      exact lookupConn_enqueue_other conns uid uid' ev h
  · intro h
    simp [broadcastEvent, h]
  · intro uid' q h
    simp only [broadcastEvent]
    rw [lookupConn_broadcast_all, h]
    rfl
  · simp only [broadcastEvent]
    rw [lookupConn_broadcast_all, lookupConn_remove_self conns uid hnd]
    rfl

/-- A concrete event fixture. -/
def sampleEvent : Event :=
  { etype := "backup_progress", payload := "job 1", timestamp := 5 }

/-- Witness for `event_bus_publish_semantics` on a two-subscriber
registry. -/
theorem event_bus_publish_semantics_witness :
    ((([("1", []), ("2", [])] : List (String × List Event)).map
        Prod.fst).Nodup)
  ∧ lookupConn
      (broadcastEvent
        (removeConnection [("1", []), ("2", [])] "1") sampleEvent none) "1" =
      none :=
  ⟨by decide,
    (event_bus_publish_semantics [("1", []), ("2", [])] sampleEvent "1"
      (by decide)).2.2.2⟩

/-- C10: `event_generator` yields the `connection_established` item
first — after registering the subscriber's fresh queue and before any
drained event — and, however the generator terminates, the `finally:`
leaves the subscriber unregistered. -/
theorem event_generator_lifecycle (conns : List (String × List Event))
    (uid : String) (steps : List PollStep)
    (hnd : (conns.map Prod.fst).Nodup) :
    (runEventGenerator conns uid steps).1.head? = some SseItem.connEstablished
  ∧ lookupConn (addConnection conns uid) uid = some []
  ∧ lookupConn (runEventGenerator conns uid steps).2 uid = none :=
  ⟨rfl, lookupConn_add_self conns uid, lookupConn_remove_add conns uid hnd⟩

/-- Witness for `event_generator_lifecycle`: a subscriber whose loop
sees one event, one keepalive timeout, then an error. -/
theorem event_generator_lifecycle_witness :
    ((([("2", [])] : List (String × List Event)).map Prod.fst).Nodup)
  ∧ (runEventGenerator [("2", [])] "1"
      [.ev sampleEvent, .timeout, .err]).1.head? = some SseItem.connEstablished :=
  ⟨by decide,
    (event_generator_lifecycle [("2", [])] "1"
      [.ev sampleEvent, .timeout, .err] (by decide)).1⟩

end BorgUI
